import Mathlib

/-!
Verification development for the access-control core of the repository
(`encapsulation hw/`): `UserIdentity`, `AccountAccess` and `SecureUser`.

The Python classes are shallowly embedded as Lean structures; every mutating
method becomes a pure function from the old state to (result, new state).
Wall-clock timestamps (`datetime.now().isoformat()`) appear in every log
entry in the source but carry no logical content, so log entries are
embedded with all their other fields and without the timestamp string.
-/

set_option autoImplicit false

namespace AccessControl

/-! ### Regex validators (`UserIdentity.__validate_email` / `__validate_phone`)

The source validates with `re.match` on anchored patterns.  `re.match`
anchors at the start, and a final `$` in the pattern matches at the very end
of the string or just before one trailing newline character; `pyMatchEnd`
reproduces that.  Character classes are embedded as Boolean character
predicates over the string's characters (`\d`, `[a-zA-Z]`, `[a-zA-Z0-9]`
taken as the ASCII ranges the patterns spell out).
-/

/-- One character of the local part class `[a-zA-Z0-9._%+-]`. -/
def isLocalChar (c : Char) : Bool :=
  c.isAlphanum || c == '.' || c == '_' || c == '%' || c == '+' || c == '-'

/-- One character of the domain class `[a-zA-Z0-9.-]`. -/
def isDomainChar (c : Char) : Bool :=
  c.isAlphanum || c == '.' || c == '-'

/-- Matching the core pattern `^[a-zA-Z0-9._%+-]+@[a-zA-Z0-9.-]+\.[a-zA-Z]{2,}$`
against the whole character list: there exist positions `i < j` holding the
literal `@` and the literal `.` such that the three segments they cut out are
nonempty local-part characters, nonempty domain characters, and at least two
letters reaching the end.  Backtracking regex matching of this pattern is
exactly such an existence of a split, realised here as a bounded scan. -/
def emailCore (cs : List Char) : Bool :=
  (List.range cs.length).any fun i =>
    (List.range cs.length).any fun j =>
      decide (1 ≤ i) && decide (i + 2 ≤ j) && decide (j + 3 ≤ cs.length) &&
      (cs.getD i ' ' == '@') && (cs.getD j ' ' == '.') &&
      (cs.take i).all isLocalChar &&
      ((cs.drop (i + 1)).take (j - (i + 1))).all isDomainChar &&
      (cs.drop (j + 1)).all Char.isAlpha

/-- Matching the core pattern `^\+\d{1,3}-\d{2,3}-\d{3,4}-\d{4,5}$`: a `+`,
then four all-digit groups of the stated lengths separated by `-`.  Since a
digit group can never contain `-`, splitting on `-` after the `+` yields the
groups exactly when the pattern matches. -/
def phoneCore (cs : List Char) : Bool :=
  match cs with
  | '+' :: rest =>
    match rest.splitOn '-' with
    | [a, b, c, d] =>
      a.all Char.isDigit && decide (1 ≤ a.length ∧ a.length ≤ 3) &&
      b.all Char.isDigit && decide (2 ≤ b.length ∧ b.length ≤ 3) &&
      c.all Char.isDigit && decide (3 ≤ c.length ∧ c.length ≤ 4) &&
      d.all Char.isDigit && decide (4 ≤ d.length ∧ d.length ≤ 5)
    | _ => false
  | _ => false

/-- Python `re.match` with a pattern anchored by `^ ... $`: the core matches
the whole string, or the whole string short of one trailing newline. -/
def pyMatchEnd (core : List Char → Bool) (cs : List Char) : Bool :=
  core cs || ((cs.getLast? == some '\n') && core cs.dropLast)

/-- `UserIdentity.__validate_email`. -/
def validate_email (email : String) : Bool :=
  pyMatchEnd emailCore email.data

/-- `UserIdentity.__validate_phone`. -/
def validate_phone (phone : String) : Bool :=
  pyMatchEnd phoneCore phone.data

/-! ### `AccountAccess` -/

/-- `AccountAccess.RESTRICTED_PERMISSIONS` (a set literal; only membership
is ever used, so a list carrying the literal's elements embeds it). -/
def RESTRICTED_PERMISSIONS : List String := ["TRANSFER", "WITHDRAW"]

/-- `AccountAccess.ALLOWED_PERMISSIONS`. -/
def ALLOWED_PERMISSIONS : List String :=
  ["VIEW_BALANCE", "VIEW_TRANSACTIONS", "TRANSFER",
   "WITHDRAW", "DEPOSIT", "UPDATE_PROFILE"]

/-- One entry of `AccountAccess.__permission_history` (timestamp field
omitted, see the file header). -/
structure PermLogEntry where
  action : String
  description : String
  current_permissions : List String
deriving Repr, DecidableEq

/-- The `AccountAccess` state: the private permission list and the private
permission-history log. -/
structure AccountAccess where
  permissions : List String
  permission_history : List PermLogEntry
deriving Repr, DecidableEq

/-- `AccountAccess.__log_permission_change`: append one history entry
carrying a copy of the current permission list. -/
def AccountAccess.log_permission_change (a : AccountAccess)
    (action description : String) : AccountAccess :=
  { a with permission_history :=
      a.permission_history ++ [⟨action, description, a.permissions⟩] }

/-- `AccountAccess.__init__`: empty permissions, then one `INITIALIZED`
history entry. -/
def AccountAccess.init : AccountAccess :=
  AccountAccess.log_permission_change ⟨[], []⟩ "INITIALIZED" "Account access created"

/-- `AccountAccess.add_permission`.  Returns the `(success, message)` pair
and the updated object. -/
def AccountAccess.add_permission (a : AccountAccess) (permission : String)
    (is_verified : Bool) : (Bool × String) × AccountAccess :=
  if permission ∉ ALLOWED_PERMISSIONS then
    let message := s!"Invalid permission: {permission}"
    ((false, message), a.log_permission_change "ADD_FAILED" message)
  else if permission ∈ a.permissions then
    let message := s!"Permission already granted: {permission}"
    ((false, message), a.log_permission_change "ADD_DUPLICATE" message)
  else if permission ∈ RESTRICTED_PERMISSIONS ∧ is_verified = false then
    let message := s!"Cannot grant \x27{permission}\x27 - user must be VERIFIED"
    ((false, message), a.log_permission_change "ADD_DENIED" message)
  else
    let a' : AccountAccess := { a with permissions := a.permissions ++ [permission] }
    let message := s!"Permission granted: {permission}"
    ((true, message), a'.log_permission_change "ADD_SUCCESS" message)

/-- `AccountAccess.remove_permission` (`list.remove` drops the first
occurrence, embedded as `List.erase`). -/
def AccountAccess.remove_permission (a : AccountAccess) (permission : String) :
    (Bool × String) × AccountAccess :=
  if permission ∈ a.permissions then
    let a' : AccountAccess := { a with permissions := a.permissions.erase permission }
    let message := s!"Permission revoked: {permission}"
    ((true, message), a'.log_permission_change "REMOVE_SUCCESS" message)
  else
    let message := s!"Permission not found: {permission}"
    ((false, message), a.log_permission_change "REMOVE_FAILED" message)

/-- `AccountAccess.has_permission`: pure membership test. -/
def AccountAccess.has_permission (a : AccountAccess) (permission : String) : Bool :=
  decide (permission ∈ a.permissions)

/-- `AccountAccess.clear_all_permissions`: empties the list, logs one
`CLEAR_ALL` entry (after the clear, so the entry snapshot is empty), and
returns the number of permissions held before the call. -/
def AccountAccess.clear_all_permissions (a : AccountAccess) : Nat × AccountAccess :=
  let count := a.permissions.length
  let a' : AccountAccess := { a with permissions := [] }
  (count, a'.log_permission_change "CLEAR_ALL" s!"Cleared {count} permissions")

/-! ### `UserIdentity` -/

/-- `UserIdentity.__verification_status`: the private field is a string set
only to `"UNVERIFIED"`, `"PENDING"` or `"VERIFIED"`, embedded as an
enumeration. -/
inductive VerificationStatus where
  | UNVERIFIED
  | PENDING
  | VERIFIED
deriving Repr, DecidableEq

/-- The string the source stores and interpolates for each status. -/
def VerificationStatus.str : VerificationStatus → String
  | .UNVERIFIED => "UNVERIFIED"
  | .PENDING => "PENDING"
  | .VERIFIED => "VERIFIED"

/-- One entry of `UserIdentity.__state_history` (timestamp omitted). -/
structure StateLogEntry where
  action : String
  description : String
  status : String
deriving Repr, DecidableEq

/-- The `UserIdentity` state.  `email` and `phone_number` start as Python
`None` before validation assigns them, hence `Option String`. -/
structure UserIdentity where
  username : String
  email : Option String
  phone_number : Option String
  verification_status : VerificationStatus
  state_history : List StateLogEntry
deriving Repr, DecidableEq

/-- `UserIdentity.__log_state_change`: append one history entry carrying the
current verification status. -/
def UserIdentity.log_state_change (u : UserIdentity)
    (action description : String) : UserIdentity :=
  { u with state_history :=
      u.state_history ++ [⟨action, description, u.verification_status.str⟩] }

/-- How Python renders the old email in the `EMAIL_CHANGED` description:
`str(None)` is `"None"`. -/
def emailStr : Option String → String
  | none => "None"
  | some e => e

/-- `UserIdentity.set_email`: validates, then assigns and logs
`EMAIL_CHANGED`, or raises `ValueError` — embedded as `Except` carrying the
`ValueError` message. -/
def UserIdentity.set_email (u : UserIdentity) (new_email : String) :
    Except String UserIdentity :=
  if validate_email new_email then
    let old_email := emailStr u.email
    Except.ok (UserIdentity.log_state_change { u with email := some new_email }
      "EMAIL_CHANGED" s!"Email changed from {old_email} to {new_email}")
  else
    Except.error s!"Invalid email format: {new_email}"

/-- `UserIdentity.__set_phone_number`: validates, then assigns and logs
`PHONE_SET`, or raises `ValueError`. -/
def UserIdentity.set_phone_number (u : UserIdentity) (phone : String) :
    Except String UserIdentity :=
  if validate_phone phone then
    Except.ok (UserIdentity.log_state_change { u with phone_number := some phone }
      "PHONE_SET" s!"Phone number set to {phone}")
  else
    Except.error s!"Invalid phone format: {phone}"

/-- `UserIdentity.__init__`: fields start unset with status `UNVERIFIED`,
then `set_email`, then `__set_phone_number` (each may raise), then the
`INITIALIZED` history entry.  A raise during construction leaves no
constructed object, embedded as an `Except.error` result. -/
def UserIdentity.mk? (username email phone_number : String) :
    Except String UserIdentity :=
  let u0 : UserIdentity :=
    { username := username, email := none, phone_number := none,
      verification_status := .UNVERIFIED, state_history := [] }
  match u0.set_email email with
  | Except.error msg => Except.error msg
  | Except.ok u1 =>
    match u1.set_phone_number phone_number with
    | Except.error msg => Except.error msg
    | Except.ok u2 =>
      Except.ok (u2.log_state_change "INITIALIZED" "User identity created")

/-- `UserIdentity.request_verification`: `UNVERIFIED → PENDING`, else a
logged no-op failure. -/
def UserIdentity.request_verification (u : UserIdentity) : Bool × UserIdentity :=
  if u.verification_status = .UNVERIFIED then
    let u' : UserIdentity := { u with verification_status := .PENDING }
    (true, u'.log_state_change "VERIFICATION_REQUESTED"
      "Status changed from UNVERIFIED to PENDING")
  else
    let st := u.verification_status.str
    (false, u.log_state_change "VERIFICATION_REQUEST_DENIED"
      s!"Cannot request verification from {st} state")

/-- `UserIdentity.verify`: `PENDING → VERIFIED`, else a logged no-op
failure. -/
def UserIdentity.verify (u : UserIdentity) : Bool × UserIdentity :=
  if u.verification_status = .PENDING then
    let u' : UserIdentity := { u with verification_status := .VERIFIED }
    (true, u'.log_state_change "VERIFIED"
      "Status changed from PENDING to VERIFIED")
  else
    let st := u.verification_status.str
    (false, u.log_state_change "VERIFICATION_DENIED"
      s!"Cannot verify from {st} state")

/-! ### `SecureUser` -/

/-- A value of the `details` dict in a `SecureUser` audit entry: the source
stores strings and booleans. -/
inductive DetailVal where
  | str (v : String)
  | bool (v : Bool)
deriving Repr, DecidableEq

/-- One entry of `SecureUser.__audit_log` (timestamp omitted).  `details`
is `none` when the parameter was not passed; every call site that passes it
passes a nonempty dict, so Python's `if details:` truthiness test coincides
with `isSome` here. -/
structure AuditEntry where
  action : String
  description : String
  success : Bool
  user : String
  verification_status : String
  details : Option (List (String × DetailVal))
deriving Repr, DecidableEq

/-- The `SecureUser` state: composed identity, access and private audit
log. -/
structure SecureUser where
  identity : UserIdentity
  access : AccountAccess
  audit_log : List AuditEntry
deriving Repr, DecidableEq

/-- `SecureUser.__log_action`: append one audit entry reading the username
and the current verification status from the composed identity. -/
def SecureUser.log_action (s : SecureUser) (action description : String)
    (success : Bool) (details : Option (List (String × DetailVal))) : SecureUser :=
  { s with audit_log := s.audit_log ++
      [⟨action, description, success, s.identity.username,
        s.identity.verification_status.str, details⟩] }

/-- `SecureUser.__init__`: builds the identity (which may raise), a fresh
`AccountAccess`, an empty audit log, then logs `USER_CREATED`. -/
def SecureUser.mk? (username email phone_number : String) :
    Except String SecureUser :=
  match UserIdentity.mk? username email phone_number with
  | Except.error msg => Except.error msg
  | Except.ok ident =>
    let s : SecureUser :=
      { identity := ident, access := AccountAccess.init, audit_log := [] }
    Except.ok (s.log_action "USER_CREATED"
      s!"SecureUser created for {username}" true none)

/-- `SecureUser.grant_permission`: computes `is_verified` from the identity
state, delegates to `AccountAccess.add_permission`, then logs the outcome
with `{permission, verified}` details. -/
def SecureUser.grant_permission (s : SecureUser) (permission : String) :
    (Bool × String) × SecureUser :=
  let is_verified := decide (s.identity.verification_status = .VERIFIED)
  let r := s.access.add_permission permission is_verified
  let success := r.1.1
  let message := r.1.2
  let s' : SecureUser := { s with access := r.2 }
  (r.1, s'.log_action "GRANT_PERMISSION"
    s!"Attempted to grant \x27{permission}\x27: {message}" success
    (some [("permission", DetailVal.str permission),
           ("verified", DetailVal.bool is_verified)]))

/-- `SecureUser.revoke_permission`: delegates to
`AccountAccess.remove_permission`, then logs the outcome. -/
def SecureUser.revoke_permission (s : SecureUser) (permission : String) :
    (Bool × String) × SecureUser :=
  let r := s.access.remove_permission permission
  let success := r.1.1
  let message := r.1.2
  let s' : SecureUser := { s with access := r.2 }
  (r.1, s'.log_action "REVOKE_PERMISSION"
    s!"Attempted to revoke \x27{permission}\x27: {message}" success
    (some [("permission", DetailVal.str permission)]))

/-- `SecureUser.has_permission`. -/
def SecureUser.has_permission (s : SecureUser) (permission : String) : Bool :=
  s.access.has_permission permission

/-- `SecureUser.request_verification`: delegates, then logs (the audit entry
reads the identity state after the transition, as the source mutates before
logging). -/
def SecureUser.request_verification (s : SecureUser) : Bool × SecureUser :=
  let r := s.identity.request_verification
  let s' : SecureUser := { s with identity := r.2 }
  let outcome := if r.1 then "successful" else "failed"
  (r.1, s'.log_action "REQUEST_VERIFICATION"
    s!"Verification request: {outcome}" r.1 none)

/-- `SecureUser.verify_identity`: delegates to `UserIdentity.verify`, then
logs. -/
def SecureUser.verify_identity (s : SecureUser) : Bool × SecureUser :=
  let r := s.identity.verify
  let s' : SecureUser := { s with identity := r.2 }
  let outcome := if r.1 then "successful" else "failed"
  (r.1, s'.log_action "VERIFY_IDENTITY"
    s!"Identity verification: {outcome}" r.1 none)

/-- `SecureUser.update_email`: delegates to `UserIdentity.set_email`; a
`ValueError` is caught, logged as a failed `UPDATE_EMAIL` entry, and turned
into a `(False, message)` result — the function is total, nothing
propagates past this boundary. -/
def SecureUser.update_email (s : SecureUser) (new_email : String) :
    (Bool × String) × SecureUser :=
  match s.identity.set_email new_email with
  | Except.ok ident' =>
    let s' : SecureUser := { s with identity := ident' }
    ((true, "Email updated successfully"),
     s'.log_action "UPDATE_EMAIL" s!"Email updated to {new_email}" true none)
  | Except.error e =>
    ((false, e),
     s.log_action "UPDATE_EMAIL" s!"Failed to update email: {e}" false none)

/-! ### Sample states used to instantiate the theorems -/

/-- A verified identity as it stands after a successful construction and
verification run (history elided: no operation below reads it). -/
def sampleIdentity : UserIdentity :=
  { username := "alice", email := some "alice@example.com",
    phone_number := some "+1-555-111-2222",
    verification_status := .VERIFIED, state_history := [] }

/-- The same identity while still unverified. -/
def sampleUnverifiedIdentity : UserIdentity :=
  { sampleIdentity with verification_status := .UNVERIFIED }

/-- A `SecureUser` around `sampleIdentity` with no permissions yet. -/
def sampleUser : SecureUser :=
  { identity := sampleIdentity, access := ⟨[], []⟩, audit_log := [] }

/-- A `SecureUser` around the unverified identity. -/
def sampleUnverifiedUser : SecureUser :=
  { identity := sampleUnverifiedIdentity, access := ⟨[], []⟩, audit_log := [] }

/-- An access object already holding the restricted permission
`TRANSFER`. -/
def sampleAccess : AccountAccess :=
  { permissions := ["TRANSFER"], permission_history := [] }

/-- The `AccountAccess` states reachable from construction by the three
mutating operations. -/
inductive ReachableAccess : AccountAccess → Prop where
  | init : ReachableAccess AccountAccess.init
  | add (a : AccountAccess) (p : String) (v : Bool) :
      ReachableAccess a → ReachableAccess (a.add_permission p v).2
  | remove (a : AccountAccess) (p : String) :
      ReachableAccess a → ReachableAccess (a.remove_permission p).2
  | clear (a : AccountAccess) :
      ReachableAccess a → ReachableAccess (a.clear_all_permissions).2

/-! ### Claims -/

/-- Claim C2: the verification state machine of `UserIdentity` moves only
forward along `UNVERIFIED → PENDING → VERIFIED`: `request_verification`
returns `true` and moves to `PENDING` exactly when the state is
`UNVERIFIED`, `verify` returns `true` and moves to `VERIFIED` exactly when
the state is `PENDING`, and every out-of-order call returns `false` and
leaves the verification state unchanged. -/
theorem verification_state_machine_forward_only (u : UserIdentity) :
    (u.request_verification).1 = decide (u.verification_status = .UNVERIFIED) ∧
    (u.request_verification).2.verification_status =
      (if u.verification_status = .UNVERIFIED then .PENDING
       else u.verification_status) ∧
    (u.verify).1 = decide (u.verification_status = .PENDING) ∧
    (u.verify).2.verification_status =
      (if u.verification_status = .PENDING then .VERIFIED
       else u.verification_status) := by
  rcases u with ⟨un, em, ph, st, hist⟩
  cases st <;>
    simp [UserIdentity.request_verification, UserIdentity.verify,
      UserIdentity.log_state_change]

/-- Claim C4: for every permission name `p` not in `ALLOWED_PERMISSIONS`,
`grant_permission p` returns `success = false` with the unknown-permission
reason string `"Invalid permission: p"` and does not alter the granted
permission set, regardless of verification state. -/
theorem grant_unknown_permission_rejected (s : SecureUser) (p : String)
    (h : p ∉ ALLOWED_PERMISSIONS) :
    (s.grant_permission p).1 = (false, s!"Invalid permission: {p}") ∧
    (s.grant_permission p).2.access.permissions = s.access.permissions := by
  simp [SecureUser.grant_permission, AccountAccess.add_permission, h,
    AccountAccess.log_permission_change, SecureUser.log_action]

/-- Witness for C4 at the unknown name `"FLY"` on a concrete user. -/
theorem grant_unknown_permission_rejected_witness :
    ("FLY" ∉ ALLOWED_PERMISSIONS) ∧
    ((sampleUser.grant_permission "FLY").1 = (false, "Invalid permission: FLY") ∧
     (sampleUser.grant_permission "FLY").2.access.permissions =
       sampleUser.access.permissions) :=
  ⟨by decide, grant_unknown_permission_rejected sampleUser "FLY" (by decide)⟩

/-- Claim C10: `clear_all_permissions` empties the granted set, returns the
number of permissions held immediately before the call, appends exactly one
`CLEAR_ALL` history entry, and afterwards `has_permission p` is `false` for
every `p`. -/
theorem clear_all_permissions_spec (a : AccountAccess) :
    (a.clear_all_permissions).1 = a.permissions.length ∧
    (a.clear_all_permissions).2.permissions = [] ∧
    (a.clear_all_permissions).2.permission_history = a.permission_history ++
      [⟨"CLEAR_ALL", "Cleared " ++ toString a.permissions.length ++ " permissions", []⟩] ∧
    ∀ p : String, (a.clear_all_permissions).2.has_permission p = false := by
  refine ⟨rfl, rfl, ?_, ?_⟩
  · rfl
  · intro p
    simp [AccountAccess.clear_all_permissions,
      AccountAccess.log_permission_change, AccountAccess.has_permission]

/-- Claim C6: every mutating `SecureUser` operation — `grant_permission`,
`revoke_permission`, `request_verification`, `verify_identity`,
`update_email` — appends exactly one entry to the audit log, whether it
succeeds or fails: the new log is the old log with exactly one entry
appended, so the old log is a prefix of the new one and the length grows by
one. -/
theorem secure_user_audit_log_append_only (s : SecureUser) (p q e : String) :
    (∃ a1, (s.grant_permission p).2.audit_log = s.audit_log ++ [a1]) ∧
    (∃ a2, (s.revoke_permission q).2.audit_log = s.audit_log ++ [a2]) ∧
    (∃ a3, (s.request_verification).2.audit_log = s.audit_log ++ [a3]) ∧
    (∃ a4, (s.verify_identity).2.audit_log = s.audit_log ++ [a4]) ∧
    (∃ a5, (s.update_email e).2.audit_log = s.audit_log ++ [a5]) := by
  refine ⟨⟨_, rfl⟩, ⟨_, rfl⟩, ⟨_, rfl⟩, ⟨_, rfl⟩, ?_⟩
  unfold SecureUser.update_email
  split <;> exact ⟨_, rfl⟩

/-- Claim C1: for every restricted permission `p` that is not already
granted, `grant_permission p` on a `SecureUser` fails with the
must-be-verified message and leaves the granted set unchanged whenever the
identity's verification state is not `VERIFIED`, and succeeds with
`"Permission granted: p"` and appends `p` to the granted set when the state
is `VERIFIED`. -/
theorem grant_restricted_requires_verified (s : SecureUser) (p : String)
    (hp : p ∈ RESTRICTED_PERMISSIONS) (hng : p ∉ s.access.permissions) :
    (s.grant_permission p).1 =
      (if s.identity.verification_status = .VERIFIED
       then (true, s!"Permission granted: {p}")
       else (false, s!"Cannot grant \x27{p}\x27 - user must be VERIFIED")) ∧
    (s.grant_permission p).2.access.permissions =
      (if s.identity.verification_status = .VERIFIED
       then s.access.permissions ++ [p]
       else s.access.permissions) := by
  have hall : p ∈ ALLOWED_PERMISSIONS := by
    simp only [RESTRICTED_PERMISSIONS, List.mem_cons, List.mem_singleton,
      List.not_mem_nil, or_false] at hp
    rcases hp with rfl | rfl <;> simp [ALLOWED_PERMISSIONS]
  by_cases hv : s.identity.verification_status = .VERIFIED <;>
    simp [SecureUser.grant_permission, AccountAccess.add_permission, hall,
      hng, hp, hv, AccountAccess.log_permission_change, SecureUser.log_action]

/-- Witness for C1: on a concrete verified user with no permissions,
granting `"TRANSFER"` succeeds and appends it. -/
theorem grant_restricted_requires_verified_witness :
    ("TRANSFER" ∈ RESTRICTED_PERMISSIONS ∧
     "TRANSFER" ∉ sampleUser.access.permissions) ∧
    ((sampleUser.grant_permission "TRANSFER").1 =
      (if sampleUser.identity.verification_status = .VERIFIED
       then (true, "Permission granted: TRANSFER")
       else (false, "Cannot grant \x27TRANSFER\x27 - user must be VERIFIED")) ∧
     (sampleUser.grant_permission "TRANSFER").2.access.permissions =
      (if sampleUser.identity.verification_status = .VERIFIED
       then sampleUser.access.permissions ++ ["TRANSFER"]
       else sampleUser.access.permissions)) :=
  ⟨⟨by decide, by decide⟩,
   grant_restricted_requires_verified sampleUser "TRANSFER" (by decide) (by decide)⟩

/-- Claim C3: for every candidate string failing email validation,
`update_email` catches the leaf's `ValueError` rather than propagating it
(the embedded function is total), returns `(false, "Invalid email format:
candidate")`, leaves the stored identity — in particular the email — and
the access object unchanged, and appends exactly one audit entry with
`success = false` describing the error. -/
theorem update_email_invalid_rejected (s : SecureUser) (c : String)
    (h : validate_email c = false) :
    (s.update_email c).1 = (false, s!"Invalid email format: {c}") ∧
    (s.update_email c).2.identity = s.identity ∧
    (s.update_email c).2.access = s.access ∧
    (s.update_email c).2.audit_log = s.audit_log ++
      [⟨"UPDATE_EMAIL", s!"Failed to update email: Invalid email format: {c}",
        false, s.identity.username, s.identity.verification_status.str, none⟩] := by
  have hset : s.identity.set_email c = Except.error s!"Invalid email format: {c}" := by
    simp [UserIdentity.set_email, h]
  simp only [SecureUser.update_email, hset, SecureUser.log_action]
  refine ⟨trivial, trivial, trivial, ?_⟩
  have hdesc : (toString "Failed to update email: " ++
      toString (toString "Invalid email format: " ++ toString c ++ toString "") ++
      toString "" : String) =
      s!"Failed to update email: Invalid email format: {c}" := by
    apply String.ext
    simp [String.data_append, toString]
  rw [hdesc]

/-- Witness for C3 at the invalid candidate `"not-an-email"` on a concrete
user. -/
theorem update_email_invalid_rejected_witness :
    (validate_email "not-an-email" = false) ∧
    ((sampleUser.update_email "not-an-email").1 =
       (false, "Invalid email format: not-an-email") ∧
     (sampleUser.update_email "not-an-email").2.identity = sampleUser.identity ∧
     (sampleUser.update_email "not-an-email").2.access = sampleUser.access ∧
     (sampleUser.update_email "not-an-email").2.audit_log = sampleUser.audit_log ++
       [⟨"UPDATE_EMAIL", "Failed to update email: Invalid email format: not-an-email",
         false, sampleUser.identity.username,
         sampleUser.identity.verification_status.str, none⟩]) :=
  ⟨by decide, update_email_invalid_rejected sampleUser "not-an-email" (by decide)⟩

/-- `add_permission` either leaves the permission list unchanged (any
failure branch) or appends the new permission, and it appends only a name
that is allowed and not yet present. -/
theorem add_permission_permissions_cases (a : AccountAccess) (p : String)
    (v : Bool) :
    (a.add_permission p v).2.permissions = a.permissions ∨
    ((a.add_permission p v).2.permissions = a.permissions ++ [p] ∧
      p ∈ ALLOWED_PERMISSIONS ∧ p ∉ a.permissions) := by
  by_cases h1 : p ∈ ALLOWED_PERMISSIONS
  · by_cases h2 : p ∈ a.permissions
    · left
      simp [AccountAccess.add_permission, h1, h2,
        AccountAccess.log_permission_change]
    · by_cases h3 : p ∈ RESTRICTED_PERMISSIONS ∧ v = false
      · left
        simp [AccountAccess.add_permission, h1, h2, h3,
          AccountAccess.log_permission_change]
      · right
        refine ⟨?_, h1, h2⟩
        simp [AccountAccess.add_permission, h1, h2, h3,
          AccountAccess.log_permission_change]
  · left
    simp [AccountAccess.add_permission, h1, AccountAccess.log_permission_change]

/-- `remove_permission` either leaves the permission list unchanged or
erases the first occurrence of the name. -/
theorem remove_permission_permissions_cases (a : AccountAccess) (p : String) :
    (a.remove_permission p).2.permissions = a.permissions ∨
    (a.remove_permission p).2.permissions = a.permissions.erase p := by
  by_cases h1 : p ∈ a.permissions
  · right
    simp [AccountAccess.remove_permission, h1,
      AccountAccess.log_permission_change]
  · left
    simp [AccountAccess.remove_permission, h1,
      AccountAccess.log_permission_change]

/-- Claim C5: in every `AccountAccess` state reachable from the empty
initial state through `add_permission`, `remove_permission` and
`clear_all_permissions`, the granted permission list has no duplicates and
every element is a member of `ALLOWED_PERMISSIONS`. -/
theorem granted_permissions_invariant (a : AccountAccess)
    (h : ReachableAccess a) :
    a.permissions.Nodup ∧ ∀ p ∈ a.permissions, p ∈ ALLOWED_PERMISSIONS := by
  induction h with
  | init =>
    simp [AccountAccess.init, AccountAccess.log_permission_change]
  | add a p v _ ih =>
    rcases add_permission_permissions_cases a p v with heq | ⟨heq, hall, hnm⟩
    · rw [heq]
      exact ih
    · rw [heq]
      constructor
      · simp [List.nodup_append, ih.1, hnm]
      · intro q hq
        rcases List.mem_append.mp hq with hq | hq
        · exact ih.2 q hq
        · rw [List.mem_singleton.mp hq]
          exact hall
  | remove a p _ ih =>
    rcases remove_permission_permissions_cases a p with heq | heq <;> rw [heq]
    · exact ih
    · exact ⟨ih.1.erase p, fun q hq => ih.2 q (List.mem_of_mem_erase hq)⟩
  | clear a _ _ =>
    simp [AccountAccess.clear_all_permissions,
      AccountAccess.log_permission_change]

/-- Witness for C5 at the state reached by one successful grant from the
initial state. -/
theorem granted_permissions_invariant_witness :
    ((AccountAccess.init.add_permission "DEPOSIT" false).2).permissions.Nodup ∧
    ∀ p ∈ ((AccountAccess.init.add_permission "DEPOSIT" false).2).permissions,
      p ∈ ALLOWED_PERMISSIONS :=
  granted_permissions_invariant _
    (ReachableAccess.add AccountAccess.init "DEPOSIT" false ReachableAccess.init)

/-- Claim C9: the failure checks of `add_permission` are ordered
unknown-permission, then duplicate, then verification-required, so for a
permission already present in the granted set (which by the C5 invariant is
always a member of `ALLOWED_PERMISSIONS`), `add_permission` returns the
duplicate-grant failure regardless of the `is_verified` flag and regardless
of whether the permission is restricted, and leaves the granted set
unchanged — an unverified caller re-granting an already-held restricted
permission gets the duplicate message, not the verification-required
message. -/
theorem add_permission_duplicate_before_verification (a : AccountAccess)
    (p : String) (v : Bool) (hmem : p ∈ a.permissions)
    (hall : p ∈ ALLOWED_PERMISSIONS) :
    (a.add_permission p v).1 = (false, s!"Permission already granted: {p}") ∧
    (a.add_permission p v).2.permissions = a.permissions := by
  simp [AccountAccess.add_permission, hmem, hall,
    AccountAccess.log_permission_change]

/-- Witness for C9: re-granting the already-held restricted permission
`"TRANSFER"` with `is_verified = false` yields the duplicate message. -/
theorem add_permission_duplicate_before_verification_witness :
    ("TRANSFER" ∈ sampleAccess.permissions ∧
     "TRANSFER" ∈ ALLOWED_PERMISSIONS) ∧
    ((sampleAccess.add_permission "TRANSFER" false).1 =
       (false, "Permission already granted: TRANSFER") ∧
     (sampleAccess.add_permission "TRANSFER" false).2.permissions =
       sampleAccess.permissions) :=
  ⟨⟨by decide, by decide⟩,
   add_permission_duplicate_before_verification sampleAccess "TRANSFER" false
     (by decide) (by decide)⟩

/-- Claim C7: constructing a `UserIdentity` (and hence a `SecureUser`) with
an email or phone that fails its validator yields a raised validation error
— embedded as an `Except.error` result — and no constructed object; and
whenever construction does return an object, the stored email and phone are
exactly the validated arguments, so they are never stored unvalidated. -/
theorem construction_rejects_invalid_email_or_phone (username e ph : String) :
    ((validate_email e = false ∨ validate_phone ph = false) →
      (∃ msg, UserIdentity.mk? username e ph = Except.error msg) ∧
      (∃ msg, SecureUser.mk? username e ph = Except.error msg) ∧
      ∀ u, UserIdentity.mk? username e ph ≠ Except.ok u) ∧
    (∀ u, UserIdentity.mk? username e ph = Except.ok u →
      u.email = some e ∧ u.phone_number = some ph ∧
      validate_email e = true ∧ validate_phone ph = true) := by
  constructor
  · intro h
    have herr : ∃ msg, UserIdentity.mk? username e ph = Except.error msg := by
      cases hve : validate_email e with
      | false =>
        refine ⟨s!"Invalid email format: {e}", ?_⟩
        simp [UserIdentity.mk?, UserIdentity.set_email, hve]
      | true =>
        have hvp : validate_phone ph = false := by
          rcases h with h | h
          · rw [hve] at h
            exact absurd h (by simp)
          · exact h
        refine ⟨s!"Invalid phone format: {ph}", ?_⟩
        simp [UserIdentity.mk?, UserIdentity.set_email, hve,
          UserIdentity.set_phone_number, hvp, UserIdentity.log_state_change]
    obtain ⟨msg, hmsg⟩ := herr
    refine ⟨⟨msg, hmsg⟩, ⟨msg, ?_⟩, ?_⟩
    · simp [SecureUser.mk?, hmsg]
    · intro u hu
      rw [hmsg] at hu
      exact Except.noConfusion hu
  · intro u hu
    cases hve : validate_email e with
    | false =>
      simp [UserIdentity.mk?, UserIdentity.set_email, hve] at hu
    | true =>
      cases hvp : validate_phone ph with
      | false =>
        simp [UserIdentity.mk?, UserIdentity.set_email, hve,
          UserIdentity.set_phone_number, hvp] at hu
      | true =>
        simp only [UserIdentity.mk?, UserIdentity.set_email, hve, if_true,
          UserIdentity.set_phone_number, hvp,
          UserIdentity.log_state_change] at hu
        cases hu
        exact ⟨rfl, rfl, rfl, rfl⟩

/-- Witness for C7: the invalid phone `"123456789"` with a valid email
makes construction fail. -/
theorem construction_rejects_invalid_email_or_phone_witness :
    ((validate_email "alice@example.com" = false ∨
      validate_phone "123456789" = false) ∧
     (∃ msg, UserIdentity.mk? "alice" "alice@example.com" "123456789" =
        Except.error msg)) ∧
    (∃ msg, SecureUser.mk? "alice" "alice@example.com" "123456789" =
       Except.error msg) :=
  ⟨⟨Or.inr (by decide),
    ((construction_rejects_invalid_email_or_phone "alice" "alice@example.com"
        "123456789").1 (Or.inr (by decide))).1⟩,
   ((construction_rejects_invalid_email_or_phone "alice" "alice@example.com"
       "123456789").1 (Or.inr (by decide))).2.1⟩

end AccessControl
